import Mathlib

/-!
Shallow embedding of `src/retry_policies.rs` from the `futures-retry-policies`
crate, and proofs of the specified properties of the retry decision adapter.

Modelling conventions:
* `u32` counters are modelled as `Nat`; the one place where the 32-bit width
  matters (the unguarded counter increment) is modelled separately by
  `next_amount32` with explicit `% 2 ^ 32` arithmetic.
* `chrono::DateTime<Utc>` timestamps are modelled as `Int` (a linear clock);
  `std::time::Duration` values are modelled as `Nat` (non-negative).
* The external backoff provider (the `retry_policies::RetryPolicy` trait bound
  on `P`) is consumed only through its capability
  `should_retry : u32 -> RetryDecision`, so it is modelled as a function
  `Nat → RetryDecision` stored in the `policy` field.
* `Utc::now()` is the single impure read in `should_retry`; it is passed in as
  the explicit parameter `now : Int`.
-/

/-- Rust `std::ops::ControlFlow<B, C>`. -/
inductive ControlFlow (B : Type) (C : Type) where
  | Continue (c : C)
  | Break (b : B)
deriving DecidableEq, Repr

/-- The external crate's `retry_policies::RetryDecision`: either retry at the
given timestamp, or do not retry. -/
inductive RetryDecision where
  | Retry (execute_after : Int)
  | DoNotRetry
deriving DecidableEq, Repr

/-- chrono's `Duration::to_std`: converts a signed duration to an unsigned one,
failing exactly on negative durations. -/
def chrono_to_std (d : Int) : Option Nat :=
  if 0 ≤ d then some d.toNat else none

/-- The trait `ShouldRetry`: whether the value should be re-attempted, given
the number of attempts made so far. -/
class ShouldRetry (R : Type) where
  should_retry : R → Nat → Bool

/-- The impl `ShouldRetry for Result<T, E>` (Rust `Result<T, E>` is Lean
`Except E T`): should not retry if ok, delegate to the error otherwise. -/
instance instShouldRetryExcept {T E : Type} [ShouldRetry E] :
    ShouldRetry (Except E T) where
  should_retry r attempts :=
    match r with
    | Except.ok _ => false
    | Except.error e => ShouldRetry.should_retry e attempts

/-- The impl `ShouldRetry for Option<T>`: should retry if `None`. -/
instance instShouldRetryOption {T : Type} : ShouldRetry (Option T) where
  should_retry o _ := o.isNone

/-- The struct `RetryPolicies<P>`: the owned backoff provider (modelled by its
decision capability) together with the attempt counter `amount`. -/
structure RetryPolicies where
  policy : Nat → RetryDecision
  amount : Nat

/-- `RetryPolicies::new`: wraps a backoff provider with counter 0. -/
def RetryPolicies.new (policy : Nat → RetryDecision) : RetryPolicies :=
  { policy := policy, amount := 0 }

/-- `RetryPolicies::should_retry` (the `RetryPolicy<R>` impl): increment the
counter, query the backoff provider with the pre-increment count, and on a
`Retry` verdict whose result is classified retryable at the post-increment
count, continue with the clamped wait duration; otherwise break with the
result. State passing is explicit: the updated adapter is returned alongside
the decision. -/
def RetryPolicies.should_retry {R : Type} [ShouldRetry R]
    (self : RetryPolicies) (result : R) (now : Int) :
    ControlFlow R Nat × RetryPolicies :=
  let attempts := self.amount + 1
  let n_past_retries := self.amount
  let self := { self with amount := attempts }
  match self.policy n_past_retries with
  | RetryDecision.Retry execute_after =>
    if ShouldRetry.should_retry result attempts then
      let dur := (chrono_to_std (execute_after - now)).getD 0
      (ControlFlow.Continue dur, self)
    else
      (ControlFlow.Break result, self)
  | RetryDecision.DoNotRetry => (ControlFlow.Break result, self)

/-- Release-mode semantics of the unguarded `u32` increment
`self.amount + 1` performed by `should_retry`: addition wraps modulo `2 ^ 32`. -/
def next_amount32 (amount : Nat) : Nat :=
  (amount + 1) % 2 ^ 32

/-- Fold a sequence of evaluations through one adapter instance: each element
is the result fed to `should_retry` together with the sampled clock. -/
def evalSeq {R : Type} [ShouldRetry R] :
    RetryPolicies → List (R × Int) → RetryPolicies
  | self, [] => self
  | self, (r, now) :: rest => evalSeq (self.should_retry r now).2 rest

/-- Modelled from the spec: the crate's orchestration loop `retry` is defined
in the crate root, which is not among the provided sources. Per spec §4.3:
invoke the operation factory, feed the completed result to the adapter's
evaluation; on `Continue` suspend (a no-op in this pure model) and loop, on
`Break` return the carried result. `op k` is the result produced by the
(k+1)-th attempt, `now k` is the clock sampled at the k-th evaluation,
`attempts_made` counts operation invocations so far and `fuel` bounds the
recursion. Returns the final result, the final adapter state, and the total
number of attempts performed. -/
def retryLoop {R : Type} [ShouldRetry R] (op : Nat → R) (now : Nat → Int) :
    RetryPolicies → Nat → Nat → Option (R × RetryPolicies × Nat)
  | _, _, 0 => none
  | policy, attempts_made, fuel + 1 =>
    let result := op attempts_made
    match policy.should_retry result (now attempts_made) with
    | (ControlFlow.Break r, policy1) => some (r, policy1, attempts_made + 1)
    | (ControlFlow.Continue _, policy1) =>
        retryLoop op now policy1 (attempts_made + 1) fuel

/-- The test helper `AlwaysRetry`: a result type whose classifier always
reports retryable. -/
structure AlwaysRetry where
deriving DecidableEq, Repr

instance instShouldRetryAlwaysRetry : ShouldRetry AlwaysRetry where
  should_retry _ _ := true

/-- A backoff provider permitting exactly `K` retries (the shape of
`ExponentialBackoff::builder().build_with_max_retries(K)` as consumed through
the decision capability): `Retry` while fewer than `K` past retries, `DoNotRetry`
afterwards. -/
def maxRetriesPolicy (K : Nat) : Nat → RetryDecision :=
  fun n => if n < K then RetryDecision.Retry 0 else RetryDecision.DoNotRetry

/-! ## Helper lemmas -/

/-- Every evaluation sets the counter to its old value plus one. -/
theorem amount_after_eval {R : Type} [ShouldRetry R]
    (self : RetryPolicies) (result : R) (now : Int) :
    (self.should_retry result now).2.amount = self.amount + 1 := by
  unfold RetryPolicies.should_retry
  cases h : self.policy self.amount <;> simp [h]
  split <;> simp

/-- Every evaluation leaves the backoff provider untouched. -/
theorem policy_after_eval {R : Type} [ShouldRetry R]
    (self : RetryPolicies) (result : R) (now : Int) :
    (self.should_retry result now).2.policy = self.policy := by
  unfold RetryPolicies.should_retry
  cases h : self.policy self.amount <;> simp [h]
  split <;> simp

/-- `to_std().unwrap_or_default()` computes `Int.toNat`, i.e. the clamp of the
signed duration at zero. -/
theorem chrono_to_std_getD (d : Int) : (chrono_to_std d).getD 0 = d.toNat := by
  unfold chrono_to_std
  split
  · rfl
  · have h0 : d.toNat = 0 := Int.toNat_eq_zero.mpr (by omega)
    simp [h0]

/-- Folding a sequence of evaluations advances the counter by the length of
the sequence. -/
theorem evalSeq_amount {R : Type} [ShouldRetry R]
    (seq : List (R × Int)) (self : RetryPolicies) :
    (evalSeq self seq).amount = self.amount + seq.length := by
  induction seq generalizing self with
  | nil => simp [evalSeq]
  | cons p rest ih =>
    obtain ⟨r, now⟩ := p
    rw [evalSeq, ih, amount_after_eval]
    simp [Nat.add_assoc, Nat.add_comm 1]

/-! ## Claim theorems -/

/-- C1: `RetryPolicies::should_retry` returns `Continue` if and only if the
backoff provider returns `Retry` for the pre-increment attempt count AND the
classifier reports the result retryable at the post-increment count; in every
other combination it returns `Break` carrying exactly the input result. -/
theorem should_retry_and_merge (R : Type) (i : ShouldRetry R)
    (self : RetryPolicies) (result : R) (now : Int) :
    ((∃ w, (@RetryPolicies.should_retry R i self result now).1
        = ControlFlow.Continue w)
      ↔ (∃ ea, self.policy self.amount = RetryDecision.Retry ea)
          ∧ @ShouldRetry.should_retry R i result (self.amount + 1) = true)
    ∧ (¬ ((∃ ea, self.policy self.amount = RetryDecision.Retry ea)
          ∧ @ShouldRetry.should_retry R i result (self.amount + 1) = true) →
        (@RetryPolicies.should_retry R i self result now).1
          = ControlFlow.Break result) := by
  unfold RetryPolicies.should_retry
  cases h : self.policy self.amount <;>
    cases hc : @ShouldRetry.should_retry R i result (self.amount + 1) <;>
      simp [h, hc]

/-- C1 witness: at a backoff provider that always retries and the `none`
classifier input, the evaluation continues. -/
theorem should_retry_and_merge_witness :
    (∃ w, ((⟨fun _ => RetryDecision.Retry 5, 0⟩ : RetryPolicies).should_retry
        (none : Option Unit) 3).1 = ControlFlow.Continue w) :=
  (should_retry_and_merge (Option Unit) instShouldRetryOption
      ⟨fun _ => RetryDecision.Retry 5, 0⟩ none 3).1.mpr ⟨⟨5, rfl⟩, rfl⟩

/-- C2: the counter is incremented by exactly 1 on each evaluation; the
decision depends on the backoff provider only through its value at the
pre-increment count, and on the classifier only through its verdict at the
post-increment count. -/
theorem should_retry_query_points (R : Type) (i : ShouldRetry R)
    (self : RetryPolicies) (result : R) (now : Int) :
    ((@RetryPolicies.should_retry R i self result now).2.amount
        = self.amount + 1)
    ∧ (∀ q : Nat → RetryDecision, q self.amount = self.policy self.amount →
        (@RetryPolicies.should_retry R i ⟨q, self.amount⟩ result now).1
          = (@RetryPolicies.should_retry R i self result now).1)
    ∧ (∀ j : ShouldRetry R,
        @ShouldRetry.should_retry R j result (self.amount + 1)
            = @ShouldRetry.should_retry R i result (self.amount + 1) →
        @RetryPolicies.should_retry R j self result now
          = @RetryPolicies.should_retry R i self result now) := by
  refine ⟨amount_after_eval self result now, fun q hq => ?_, fun j hj => ?_⟩
  · unfold RetryPolicies.should_retry
    simp only [hq]
    cases h : self.policy self.amount <;> simp [h]
    split <;> simp
  · unfold RetryPolicies.should_retry
    simp only [hj]

/-- C2 witness: a concrete evaluation increments the counter from 0 to 1. -/
theorem should_retry_query_points_witness :
    ((RetryPolicies.new (maxRetriesPolicy 3)).should_retry
        (none : Option Unit) 0).2.amount = (RetryPolicies.new (maxRetriesPolicy 3)).amount + 1 :=
  (should_retry_query_points (Option Unit) instShouldRetryOption
      (RetryPolicies.new (maxRetriesPolicy 3)) none 0).1

/-- C3: when the provider returns `Retry execute_after` and the classifier
says retryable, the produced wait is `(execute_after - now).toNat`, which
equals `max (execute_after - now) 0`; in particular it is 0 (with no error
signalled) whenever `execute_after ≤ now`. -/
theorem nonneg_wait (R : Type) (i : ShouldRetry R) (self : RetryPolicies)
    (result : R) (now ea : Int)
    (hp : self.policy self.amount = RetryDecision.Retry ea)
    (hc : @ShouldRetry.should_retry R i result (self.amount + 1) = true) :
    (@RetryPolicies.should_retry R i self result now).1
        = ControlFlow.Continue (ea - now).toNat
    ∧ ((ea - now).toNat : Int) = max (ea - now) 0
    ∧ (ea ≤ now → (ea - now).toNat = 0) := by
  refine ⟨?_, Int.toNat_eq_max _, fun hle => Int.toNat_eq_zero.mpr (by omega)⟩
  unfold RetryPolicies.should_retry
  simp [hp, hc, chrono_to_std_getD]

/-- C3 witness: a provider firing 5 time units in the past produces a zero
wait. -/
theorem nonneg_wait_witness :
    ((⟨fun _ => RetryDecision.Retry 5, 0⟩ : RetryPolicies).should_retry
        (none : Option Unit) 10).1 = ControlFlow.Continue ((5 - 10 : Int)).toNat
    ∧ (((5 - 10 : Int)).toNat : Int) = max (5 - 10 : Int) 0
    ∧ ((5 : Int) ≤ 10 → ((5 - 10 : Int)).toNat = 0) :=
  nonneg_wait (Option Unit) instShouldRetryOption
    ⟨fun _ => RetryDecision.Retry 5, 0⟩ none 10 5 rfl rfl

/-- C4: when the backoff provider answers `DoNotRetry` at the pre-increment
count, the evaluation breaks with the input result (and bumps the counter),
and its outcome does not depend on the classifier at all. -/
theorem stop_short_circuit (R : Type) (i : ShouldRetry R)
    (self : RetryPolicies) (result : R) (now : Int)
    (hp : self.policy self.amount = RetryDecision.DoNotRetry) :
    @RetryPolicies.should_retry R i self result now
        = (ControlFlow.Break result, ⟨self.policy, self.amount + 1⟩)
    ∧ ∀ j : ShouldRetry R,
        @RetryPolicies.should_retry R j self result now
          = @RetryPolicies.should_retry R i self result now := by
  constructor
  · unfold RetryPolicies.should_retry
    simp [hp]
  · intro j
    unfold RetryPolicies.should_retry
    simp [hp]

/-- C4 witness: an exhausted provider breaks with the `some` result even
though the classifier is irrelevant. -/
theorem stop_short_circuit_witness :
    (⟨fun _ => RetryDecision.DoNotRetry, 7⟩ : RetryPolicies).should_retry
        (some 3 : Option Nat) 0
      = (ControlFlow.Break (some 3), ⟨fun _ => RetryDecision.DoNotRetry, 8⟩) :=
  (stop_short_circuit (Option Nat) instShouldRetryOption
      ⟨fun _ => RetryDecision.DoNotRetry, 7⟩ (some 3) 0 rfl).1

/-- C5: the built-in `Option` classifier reports retryable exactly when the
value is `none`; a `some` value is never retryable at any attempt count. -/
theorem option_classifier (T : Type) (o : Option T) (attempts : Nat) :
    (@ShouldRetry.should_retry (Option T) instShouldRetryOption o attempts = true
      ↔ o = none)
    ∧ (∀ t : T,
        @ShouldRetry.should_retry (Option T) instShouldRetryOption (some t) attempts
          = false) := by
  constructor
  · cases o <;> simp [ShouldRetry.should_retry, instShouldRetryOption]
  · intro t
    simp [ShouldRetry.should_retry, instShouldRetryOption]

/-- C5 witness: at attempts = 2, a `none` is retryable and a `some` is not. -/
theorem option_classifier_witness :
    (@ShouldRetry.should_retry (Option Nat) instShouldRetryOption none 2 = true
      ↔ (none : Option Nat) = none)
    ∧ (∀ t : Nat,
        @ShouldRetry.should_retry (Option Nat) instShouldRetryOption (some t) 2
          = false) :=
  option_classifier Nat none 2

/-- C6: the built-in `Result` classifier reports `Ok` not-retryable and
reports `Err e` retryable exactly when `e`'s own classifier does at the same
attempt count. -/
theorem result_classifier (T E : Type) (i : ShouldRetry E) (t : T) (e : E)
    (attempts : Nat) :
    @ShouldRetry.should_retry (Except E T) (@instShouldRetryExcept T E i)
        (Except.ok t) attempts = false
    ∧ @ShouldRetry.should_retry (Except E T) (@instShouldRetryExcept T E i)
        (Except.error e) attempts
      = @ShouldRetry.should_retry E i e attempts := by
  constructor <;> simp [ShouldRetry.should_retry, instShouldRetryExcept]

/-- C6 witness: with the `Option` classifier on the error side, `Ok` is not
retryable and `Err none` inherits `none`'s retryable verdict. -/
theorem result_classifier_witness :
    @ShouldRetry.should_retry (Except (Option Nat) Unit)
        (@instShouldRetryExcept Unit (Option Nat) instShouldRetryOption)
        (Except.ok ()) 1 = false
    ∧ @ShouldRetry.should_retry (Except (Option Nat) Unit)
        (@instShouldRetryExcept Unit (Option Nat) instShouldRetryOption)
        (Except.error none) 1
      = @ShouldRetry.should_retry (Option Nat) instShouldRetryOption none 1 :=
  result_classifier Unit (Option Nat) instShouldRetryOption () none 1

/-- C7: the counter starts at 0 after `RetryPolicies::new`, each evaluation
sets it to exactly one more than before (hence strictly increases), and
across any sequence of evaluations on one instance it accumulates the number
of evaluations, never being reset. -/
theorem counter_lifecycle (R : Type) (i : ShouldRetry R)
    (p : Nat → RetryDecision) (self : RetryPolicies) (result : R) (now : Int)
    (seq : List (R × Int)) :
    (RetryPolicies.new p).amount = 0
    ∧ (@RetryPolicies.should_retry R i self result now).2.amount
        = self.amount + 1
    ∧ self.amount < (@RetryPolicies.should_retry R i self result now).2.amount
    ∧ (@evalSeq R i self seq).amount = self.amount + seq.length :=
  ⟨rfl, amount_after_eval self result now,
    by rw [amount_after_eval self result now]; omega,
    evalSeq_amount seq self⟩

/-- C7 witness: after a sequence of three evaluations from a fresh adapter,
the counter is 3. -/
theorem counter_lifecycle_witness :
    (@evalSeq (Option Unit) instShouldRetryOption
        (RetryPolicies.new (maxRetriesPolicy 5))
        [(none, 0), (none, 1), (none, 2)]).amount
      = (RetryPolicies.new (maxRetriesPolicy 5)).amount + 3 :=
  (counter_lifecycle (Option Unit) instShouldRetryOption (maxRetriesPolicy 5)
      (RetryPolicies.new (maxRetriesPolicy 5)) none 0
      [(none, 0), (none, 1), (none, 2)]).2.2.2

/-- Exhaustion auxiliary: from counter `a` with `a + n = K`, the loop with the
always-retry classifier runs the remaining budget down and stops with counter
and attempt tally `K + 1`. -/
theorem retryLoop_max_aux (K : Nat) :
    ∀ (n a : Nat), a + n = K →
      retryLoop (fun _ => AlwaysRetry.mk) (fun _ => 0)
          ⟨maxRetriesPolicy K, a⟩ a (n + 1)
        = some (AlwaysRetry.mk, ⟨maxRetriesPolicy K, K + 1⟩, K + 1) := by
  intro n
  induction n with
  | zero =>
    intro a ha
    have haK : a = K := by omega
    subst haK
    simp [retryLoop, RetryPolicies.should_retry, maxRetriesPolicy]
  | succ m ih =>
    intro a ha
    have haK : a < K := by omega
    rw [retryLoop]
    simp only [RetryPolicies.should_retry, maxRetriesPolicy, if_pos haK]
    simpa [ShouldRetry.should_retry, instShouldRetryAlwaysRetry,
      maxRetriesPolicy] using ih (a + 1) (by omega)

/-- C8: with a backoff provider permitting exactly `K` retries and a
classifier that always reports retryable, the orchestration loop terminates
after exactly `K + 1` attempts with the adapter's counter equal to `K + 1`. -/
theorem exhaustion (K : Nat) :
    retryLoop (fun _ => AlwaysRetry.mk) (fun _ => 0)
        (RetryPolicies.new (maxRetriesPolicy K)) 0 (K + 1)
      = some (AlwaysRetry.mk, ⟨maxRetriesPolicy K, K + 1⟩, K + 1) :=
  retryLoop_max_aux K K 0 (by omega)

/-- C8 witness: the spec's example K = 3 gives 4 attempts and counter 4. -/
theorem exhaustion_witness :
    retryLoop (fun _ => AlwaysRetry.mk) (fun _ => 0)
        (RetryPolicies.new (maxRetriesPolicy 3)) 0 4
      = some (AlwaysRetry.mk, ⟨maxRetriesPolicy 3, 4⟩, 4) :=
  exhaustion 3

/-- C9: the `u32` counter increment `amount + 1` is exact below the width
bound but wraps to 0 at `2 ^ 32 - 1` (release semantics), where the strict
increase invariant fails. -/
theorem counter_overflow :
    (∀ a : Nat, a < 2 ^ 32 - 1 → next_amount32 a = a + 1)
    ∧ next_amount32 (2 ^ 32 - 1) = 0
    ∧ ¬ 2 ^ 32 - 1 < next_amount32 (2 ^ 32 - 1) := by
  refine ⟨fun a ha => ?_, ?_, ?_⟩
  · unfold next_amount32
    exact Nat.mod_eq_of_lt (by omega)
  · unfold next_amount32
    norm_num
  · unfold next_amount32
    norm_num

/-- C9 witness: below the bound the wrapped increment is the plain one. -/
theorem counter_overflow_witness : next_amount32 5 = 5 + 1 :=
  counter_overflow.1 5 (by norm_num)

/-- C10: evaluation mutates only the counter: the backoff provider field is
unchanged, the counter is the old value plus one, and any `Break` carries
exactly the input result. -/
theorem frame_effect (R : Type) (i : ShouldRetry R) (self : RetryPolicies)
    (result : R) (now : Int) :
    (@RetryPolicies.should_retry R i self result now).2.policy = self.policy
    ∧ (@RetryPolicies.should_retry R i self result now).2.amount
        = self.amount + 1
    ∧ (∀ r : R,
        (@RetryPolicies.should_retry R i self result now).1
            = ControlFlow.Break r → r = result) := by
  refine ⟨policy_after_eval self result now, amount_after_eval self result now,
    fun r hr => ?_⟩
  unfold RetryPolicies.should_retry at hr
  cases h : self.policy self.amount <;> simp [h] at hr
  · split at hr <;> simp_all
  · exact hr.symm

/-- C10 witness: a concrete `Break` carries back exactly the input value. -/
theorem frame_effect_witness : (some 1 : Option Nat) = some 1 :=
  (frame_effect (Option Nat) instShouldRetryOption
      ⟨fun _ => RetryDecision.DoNotRetry, 0⟩ (some 1) 0).2.2 (some 1) rfl
